import Mathlib

/-!
Shallow embedding of `convert_dataset.py` and `analyze_cagra_results.py`.

Files are modelled as lists of byte values (`List Nat`, each entry a byte).
`struct.unpack('i', ...)` decodes a 4-byte little-endian *signed* 32-bit
integer; `struct.pack('I', ...)` encodes an unsigned 32-bit integer and
raises `struct.error` when the value is out of `[0, 2^32)`.
`f.read(n)` with a negative `n` reads the remainder of the file; with a
nonnegative `n` it reads at most `n` bytes.
-/

namespace ConvertDataset

/-- Little-endian 4-byte encoding of a natural number (lowest 32 bits). -/
def toLE4 (n : Nat) : List Nat :=
  [n % 256, n / 256 % 256, n / 256 ^ 2 % 256, n / 256 ^ 3 % 256]

/-- Value of the first four bytes of a list, read little-endian. -/
def fromLE4 (bs : List Nat) : Nat :=
  match bs with
  | b0 :: b1 :: b2 :: b3 :: _ => b0 + 256 * b1 + 256 ^ 2 * b2 + 256 ^ 3 * b3
  | _ => 0

/-- Reinterpret an unsigned 32-bit value as a signed 32-bit value
(two's complement), as `struct.unpack('i', ...)` does. -/
def toSigned32 (n : Nat) : Int :=
  if n < 2 ^ 31 then (n : Int) else (n : Int) - 2 ^ 32

/-- The Python exceptions the conversion script can raise. -/
inductive PyError where
  /-- `struct.error` from `struct.unpack` on a buffer that is not 4 bytes. -/
  | structUnpackError : PyError
  /-- `ValueError("Data size mismatch: expected ..., got ...")`. -/
  | sizeMismatch : Int → Nat → PyError
  /-- `struct.error` from `struct.pack('I', x)` with `x` outside `[0, 2^32)`. -/
  | structPackError : PyError
deriving DecidableEq

/-- `struct.unpack('i', bs)[0]`: signed little-endian 32-bit decode,
failing unless the buffer is exactly 4 bytes. -/
def structUnpack_i (bs : List Nat) : Except PyError Int :=
  if bs.length = 4 then .ok (toSigned32 (fromLE4 bs)) else .error .structUnpackError

/-- `struct.pack('I', x)`: unsigned little-endian 32-bit encode, failing
when `x` is not in `[0, 2^32)`. -/
def structPack_I (x : Int) : Except PyError (List Nat) :=
  if 0 ≤ x ∧ x < 2 ^ 32 then .ok (toLE4 x.toNat) else .error .structPackError

/-- The `data_type` argument of `convert_bin_to_fbin`: `'f'` or `'q'`. -/
inductive DataType where
  | f : DataType
  | q : DataType
deriving DecidableEq

/-- `element_size = 4 if data_type == 'f' else 8` (line 38). -/
def element_size : DataType → Nat
  | .f => 4
  | .q => 8

/-- `f.read(size)` on the remaining bytes `rest` of an open file:
a negative `size` reads everything, otherwise at most `size` bytes. -/
def pyRead (rest : List Nat) (size : Int) : List Nat :=
  if size < 0 then rest else rest.take size.toNat

/-- Result of one call to `convert_bin_to_fbin`: the exception-or-unit
outcome, and the state of the destination file afterwards (`none` when the
destination was never opened, otherwise its byte contents). -/
structure ConvResult where
  res : Except PyError Unit
  dest : Option (List Nat)

/-- `convert_bin_to_fbin(input_file, output_file, data_type)` (lines 14-52),
over the source file's bytes `src` and the destination file's prior state
`dest0`.  The read phase unpacks two signed words, computes
`data_size = dim * count * element_size`, reads `data = f.read(data_size)`
and raises `ValueError` when `len(data) != data_size`.  Only then is the
destination opened for writing (truncating it), and the two `struct.pack('I', ...)`
calls run before their bytes and the payload are written. -/
def convert_bin_to_fbin (src : List Nat) (dest0 : Option (List Nat))
    (data_type : DataType) : ConvResult :=
  match structUnpack_i (src.take 4) with
  | .error e => ⟨.error e, dest0⟩
  | .ok first_meta =>
    match structUnpack_i ((src.drop 4).take 4) with
    | .error e => ⟨.error e, dest0⟩
    | .ok second_meta =>
      let dim := first_meta
      let count := second_meta
      let data_size : Int := dim * count * (element_size data_type : Int)
      let data := pyRead (src.drop 8) data_size
      if (data.length : Int) ≠ data_size then
        ⟨.error (.sizeMismatch data_size data.length), dest0⟩
      else
        match structPack_I count with
        | .error e => ⟨.error e, some []⟩
        | .ok countBytes =>
          match structPack_I dim with
          | .error e => ⟨.error e, some countBytes⟩
          | .ok dimBytes =>
            ⟨.ok (), some (countBytes ++ dimBytes ++ data)⟩

/-- The header-decoding step of the converter (lines 27-28): two signed
little-endian 32-bit words read in physical order `(dimension, count)`. -/
def decode_internal (bs : List Nat) : Except PyError (Int × Int) :=
  match structUnpack_i (bs.take 4) with
  | .error e => .error e
  | .ok first_meta =>
    match structUnpack_i ((bs.drop 4).take 4) with
    | .error e => .error e
    | .ok second_meta => .ok (first_meta, second_meta)

/-- The header-encoding step of the converter (lines 47-48): two
`struct.pack('I', ...)` calls in physical order `(count, dimension)`. -/
def encode_standard (dim count : Int) : Except PyError (List Nat) :=
  match structPack_I count with
  | .error e => .error e
  | .ok countBytes =>
    match structPack_I dim with
    | .error e => .error e
    | .ok dimBytes => .ok (countBytes ++ dimBytes)

/-- An 8-byte internal-layout header built from a `(dimension, count)` pair:
physical order `(dimension, count)`, 4-byte little-endian words. -/
def internalHeader (dimension count : Nat) : List Nat :=
  toLE4 dimension ++ toLE4 count

/-- Decode an internal-layout header and re-encode it as a standard-layout
header, the composite the round-trip property talks about. -/
def roundTrip (dimension count : Nat) : Except PyError (List Nat) :=
  match decode_internal (internalHeader dimension count) with
  | .error e => .error e
  | .ok (d, c) => encode_standard d c

/-- One entry of the fixed manifest `conversions` in `main` (lines 80-84). -/
structure ManifestEntry where
  input_name : String
  output_name : String
  dtype : DataType

/-- The fixed manifest of `main` (lines 80-84). -/
def conversions : List ManifestEntry :=
  [⟨"openai_500k_train_vectors.bin", "openai500k_base.fbin", .f⟩,
   ⟨"openai_500k_test_queries.bin", "openai500k_query.fbin", .f⟩,
   ⟨"openai_500k_ground_truth.bin", "openai500k_groundtruth.ibin", .q⟩]

/-- Per-entry outcome recorded by the batch driver. -/
inductive Outcome where
  /-- `"Warning: ... not found, skipping..."` (line 91). -/
  | skipped : String → Outcome
  /-- a successful `convert_bin_to_fbin` call (line 95). -/
  | converted : String → Outcome
deriving DecidableEq

/-- A directory modelled as an association list from file name to bytes. -/
def lookupFile (fsys : List (String × List Nat)) (name : String) : Option (List Nat) :=
  (fsys.find? (fun p => p.1 == name)).map (fun p => p.2)

/-- Writing (creating or replacing) a file in a directory. -/
def writeFile (fsys : List (String × List Nat)) (name : String)
    (content : List Nat) : List (String × List Nat) :=
  (name, content) :: fsys.filter (fun p => p.1 != name)

/-- Final state of the batch driver: the destination directory, the
per-entry outcomes, and — when a conversion raised — the offending input
file name together with the error (`sys.exit(1)` path, lines 97-99). -/
structure BatchState where
  destFs : List (String × List Nat)
  outcomes : List Outcome
  aborted : Option (String × PyError)

/-- The loop of `main` over the manifest (lines 86-99): a missing source
file records a skip and continues; any exception from
`convert_bin_to_fbin` stops the batch at once, keeping whatever the failed
call left in the destination directory and everything written before. -/
def runBatch (srcFs : List (String × List Nat)) (entries : List ManifestEntry)
    (destFs : List (String × List Nat)) (outcomes : List Outcome) : BatchState :=
  match entries with
  | [] => ⟨destFs, outcomes, none⟩
  | e :: rest =>
    match lookupFile srcFs e.input_name with
    | none => runBatch srcFs rest destFs (outcomes ++ [.skipped e.input_name])
    | some src =>
      let r := convert_bin_to_fbin src (lookupFile destFs e.output_name) e.dtype
      let destFs2 := match r.dest with
        | none => destFs
        | some d => writeFile destFs e.output_name d
      match r.res with
      | .ok _ => runBatch srcFs rest destFs2 (outcomes ++ [.converted e.output_name])
      | .error err => ⟨destFs2, outcomes, some (e.input_name, err)⟩

end ConvertDataset

namespace AnalyzeCagra

/-- One parsed benchmark record as built by `parse_benchmark_result`
(lines 25-48 of `analyze_cagra_results.py`).  The float-valued counters
(`qps`, `recall`, `latency`) are carried as their rendered decimal strings;
the sorting key `threads` and `total_queries` are integers in the source. -/
structure BenchRecord where
  threads : Nat
  qps : String
  /-- the `recall` field of the source record; `recall` itself is a
  reserved word in this development's ambient library. -/
  recallVal : String
  latency : String
  total_queries : Nat
deriving DecidableEq

/-- `results.sort(key=lambda x: x['threads'])` (line 85). -/
def sortResults (rs : List BenchRecord) : List BenchRecord :=
  rs.mergeSort (fun a b => a.threads ≤ b.threads)

/-- The CSV header line written at line 115. -/
def csvHeaderLine : String := "Concurrency,QPS,Recall,Latency_ms,Total_Queries"

/-- One CSV data row (lines 117-118): the record's fields joined by commas
in the order threads, qps, recall, latency, total queries. -/
def csvRow (r : BenchRecord) : String :=
  toString r.threads ++ "," ++ r.qps ++ "," ++ r.recallVal ++ ","
    ++ r.latency ++ "," ++ toString r.total_queries

/-- The lines of `summary.csv` (lines 113-118): the header followed by one
row per record of the sorted result list. -/
def summaryCsv (results : List BenchRecord) : List String :=
  csvHeaderLine :: (sortResults results).map csvRow

end AnalyzeCagra

namespace ConvertDataset

theorem toLE4_length (n : Nat) : (toLE4 n).length = 4 := rfl

theorem fromLE4_toLE4_append (n : Nat) (rest : List Nat) :
    fromLE4 (toLE4 n ++ rest) = n % 2 ^ 32 := by
  simp only [toLE4, fromLE4, List.cons_append, List.nil_append]
  omega

theorem fromLE4_toLE4 (n : Nat) : fromLE4 (toLE4 n) = n % 2 ^ 32 := by
  simp only [toLE4, fromLE4]
  omega

theorem take4_toLE4_append (n : Nat) (rest : List Nat) :
    (toLE4 n ++ rest).take 4 = toLE4 n := by
  simp [toLE4]

theorem drop4_toLE4_append (n : Nat) (rest : List Nat) :
    (toLE4 n ++ rest).drop 4 = rest := by
  simp [toLE4]

theorem drop8_header (a b : Nat) (p : List Nat) :
    (toLE4 a ++ (toLE4 b ++ p)).drop 8 = p := by
  simp [toLE4]

theorem structUnpack_i_toLE4 (n : Nat) :
    structUnpack_i (toLE4 n) = .ok (toSigned32 (n % 2 ^ 32)) := by
  simp [structUnpack_i, toLE4_length, fromLE4_toLE4]

theorem structUnpack_i_small (n : Nat) (h : n < 2 ^ 31) :
    structUnpack_i (toLE4 n) = .ok (n : Int) := by
  rw [structUnpack_i_toLE4, Nat.mod_eq_of_lt (by omega), toSigned32, if_pos h]

theorem structPack_I_ofNat (n : Nat) (h : n < 2 ^ 32) :
    structPack_I (n : Int) = .ok (toLE4 n) := by
  have h1 : (0 : Int) ≤ (n : Int) ∧ (n : Int) < 2 ^ 32 := by
    constructor
    · positivity
    · exact_mod_cast h
  rw [structPack_I, if_pos h1]
  simp

/-- Every error of `structPack_I` is the `struct.error` of an out-of-range
pack argument. -/
theorem structPack_I_error (x : Int) (e : PyError) (h : structPack_I x = .error e) :
    e = .structPackError := by
  unfold structPack_I at h
  split_ifs at h
  simp_all

/-- On a well-formed input whose header words are below `2^31`, the
converter succeeds and the destination holds the transposed header followed
by the untouched payload. -/
theorem convert_ok (d c : Nat) (p : List Nat) (dest0 : Option (List Nat))
    (dt : DataType) (hd : d < 2 ^ 31) (hc : c < 2 ^ 31)
    (hp : p.length = d * c * element_size dt) :
    convert_bin_to_fbin (toLE4 d ++ toLE4 c ++ p) dest0 dt =
      ⟨.ok (), some (toLE4 c ++ toLE4 d ++ p)⟩ := by
  have h32d : d < 2 ^ 32 := by omega
  have h32c : c < 2 ^ 32 := by omega
  have hcast : (d : Int) * (c : Int) * ((element_size dt : Nat) : Int) =
      ((d * c * element_size dt : Nat) : Int) := by push_cast; ring
  have hread : pyRead p ((d * c * element_size dt : Nat) : Int) = p := by
    rw [pyRead, if_neg (by omega)]
    simp only [Int.toNat_natCast, ← hp, List.take_length]
  rw [List.append_assoc]
  simp only [convert_bin_to_fbin, take4_toLE4_append, drop4_toLE4_append, drop8_header]
  rw [structUnpack_i_small d hd, structUnpack_i_small c hc]
  simp only [hcast, hread, hp]
  rw [if_neg (by simp), structPack_I_ofNat c h32c, structPack_I_ofNat d h32d]

theorem take4_toLE4 (n : Nat) : (toLE4 n).take 4 = toLE4 n := by
  simp [toLE4]

theorem decode_internal_header (d c : Nat) (hd : d < 2 ^ 31) (hc : c < 2 ^ 31) :
    decode_internal (internalHeader d c) = .ok ((d : Int), (c : Int)) := by
  unfold decode_internal internalHeader
  rw [take4_toLE4_append, structUnpack_i_small d hd, drop4_toLE4_append,
    take4_toLE4, structUnpack_i_small c hc]

theorem encode_standard_ok (d c : Int) (h1 : structPack_I c = .ok (toLE4 c.toNat))
    (h2 : structPack_I d = .ok (toLE4 d.toNat)) :
    encode_standard d c = .ok (toLE4 c.toNat ++ toLE4 d.toNat) := by
  unfold encode_standard
  rw [h1, h2]

theorem encode_standard_ofNat (d c : Nat) (hd : d < 2 ^ 32) (hc : c < 2 ^ 32) :
    encode_standard (d : Int) (c : Int) = .ok (toLE4 c ++ toLE4 d) := by
  have h := encode_standard_ok (d : Int) (c : Int)
    (by rw [structPack_I_ofNat c hc]; simp)
    (by rw [structPack_I_ofNat d hd]; simp)
  simpa using h

/-- C1 counterexample: `2^31` is an unsigned 32-bit value, yet decoding an
internal-layout header built from `(dimension, count) = (2^31, 0)` and
re-encoding it as standard layout does not yield a header at all — the
signed decode makes the dimension word negative and `struct.pack('I', ...)`
raises `struct.error`. -/
theorem C1_counterexample :
    2 ^ 31 < 2 ^ 32 ∧ roundTrip (2 ^ 31) 0 = .error .structPackError := by
  constructor
  · norm_num
  · rfl

/-- C1 amended: for every `(dimension, count)` pair below `2^31` (so that
the signed decode is the identity), decoding an internal-layout header
built from them and re-encoding as standard layout yields an 8-byte header
whose first 4-byte word is `count` and whose second 4-byte word is
`dimension`. -/
theorem C1_round_trip_amended (dimension count : Nat)
    (hd : dimension < 2 ^ 31) (hc : count < 2 ^ 31) :
    ∃ out, roundTrip dimension count = .ok out ∧ out.length = 8 ∧
      fromLE4 (out.take 4) = count ∧ fromLE4 (out.drop 4) = dimension := by
  have h32d : dimension < 2 ^ 32 := by omega
  have h32c : count < 2 ^ 32 := by omega
  refine ⟨toLE4 count ++ toLE4 dimension, ?_, by simp [toLE4], ?_, ?_⟩
  · unfold roundTrip
    rw [decode_internal_header dimension count hd hc]
    exact encode_standard_ofNat dimension count h32d h32c
  · rw [take4_toLE4_append, fromLE4_toLE4, Nat.mod_eq_of_lt h32c]
  · rw [drop4_toLE4_append, fromLE4_toLE4, Nat.mod_eq_of_lt h32d]

/-- C1 witness: the amended round-trip theorem at `(dimension, count) = (2, 3)`. -/
theorem C1_round_trip_witness :
    ∃ out, roundTrip 2 3 = .ok out ∧ out.length = 8 ∧
      fromLE4 (out.take 4) = 3 ∧ fromLE4 (out.drop 4) = 2 :=
  C1_round_trip_amended 2 3 (by norm_num) (by norm_num)

/-- C2 counterexample: the file whose header words are `(2^31, 0)` with an
empty payload is well-formed (its payload length equals
`dimension * count * element_width = 0`), yet `convert` raises
`struct.error` instead of succeeding. -/
theorem C2_counterexample :
    ([] : List Nat).length = 2 ^ 31 * 0 * element_size .f ∧
    (convert_bin_to_fbin (toLE4 (2 ^ 31) ++ toLE4 0 ++ []) none .f).res =
      .error .structPackError := by
  constructor
  · rfl
  · rfl

/-- C2 amended: for every well-formed input whose header words are below
`2^31`, `convert` succeeds and the destination's bytes from offset 8 onward
are bit-identical to the payload; only the 8-byte header changes. -/
theorem C2_payload_preservation (d c : Nat) (p : List Nat)
    (dest0 : Option (List Nat)) (dt : DataType)
    (hd : d < 2 ^ 31) (hc : c < 2 ^ 31)
    (hp : p.length = d * c * element_size dt) :
    (convert_bin_to_fbin (toLE4 d ++ toLE4 c ++ p) dest0 dt).res = .ok () ∧
    ∃ out, (convert_bin_to_fbin (toLE4 d ++ toLE4 c ++ p) dest0 dt).dest = some out ∧
      out.drop 8 = p ∧ out.length = 8 + p.length := by
  rw [convert_ok d c p dest0 dt hd hc hp]
  refine ⟨rfl, toLE4 c ++ toLE4 d ++ p, rfl, ?_, ?_⟩
  · rw [List.append_assoc]
    exact drop8_header c d p
  · simp [toLE4]
    omega

/-- C2 witness: payload preservation at `dim = 2`, `count = 3`, a 24-byte
payload and element width 4. -/
theorem C2_payload_witness :
    (convert_bin_to_fbin (toLE4 2 ++ toLE4 3 ++ List.replicate 24 0) none .f).res = .ok () ∧
    ∃ out, (convert_bin_to_fbin (toLE4 2 ++ toLE4 3 ++ List.replicate 24 0) none .f).dest
        = some out ∧
      out.drop 8 = List.replicate 24 0 ∧
      out.length = 8 + (List.replicate 24 (0 : Nat)).length := by
  have h := C2_payload_preservation 2 3 (List.replicate 24 0) none .f
    (by norm_num) (by norm_num) (by simp [element_size])
  simpa using h

/-- C3 counterexample: an over-long source file — `dim = count = 1`,
element width 4, but 5 bytes of payload — does not fail: `f.read(4)`
simply leaves the extra byte unread, the size check compares 4 against 4,
and `convert` silently truncates the payload and succeeds. -/
theorem C3_counterexample :
    ([9, 8, 7, 6, 5] : List Nat).length ≠ 1 * 1 * element_size .f ∧
    (convert_bin_to_fbin (toLE4 1 ++ toLE4 1 ++ [9, 8, 7, 6, 5]) none .f).res = .ok () := by
  constructor
  · decide
  · rfl

/-- C3 amended: a source file whose payload is *shorter* than
`dimension * count * element_width` (header words below `2^31`) always
fails with the payload-size-mismatch `ValueError`; over-long payloads are
not detected but silently truncated. -/
theorem C3_size_validation (d c : Nat) (p : List Nat) (dest0 : Option (List Nat))
    (dt : DataType) (hd : d < 2 ^ 31) (hc : c < 2 ^ 31)
    (hp : p.length < d * c * element_size dt) :
    (convert_bin_to_fbin (toLE4 d ++ toLE4 c ++ p) dest0 dt).res =
      .error (.sizeMismatch ((d * c * element_size dt : Nat) : Int) p.length) := by
  have hcast : (d : Int) * (c : Int) * ((element_size dt : Nat) : Int) =
      ((d * c * element_size dt : Nat) : Int) := by push_cast; ring
  have hread : pyRead p ((d * c * element_size dt : Nat) : Int) = p := by
    rw [pyRead, if_neg (by omega)]
    simp only [Int.toNat_natCast]
    exact List.take_of_length_le (le_of_lt hp)
  rw [List.append_assoc]
  simp only [convert_bin_to_fbin, take4_toLE4_append, drop4_toLE4_append, drop8_header]
  rw [structUnpack_i_small d hd, structUnpack_i_small c hc]
  simp only [hcast, hread]
  rw [if_pos (by exact_mod_cast hp.ne)]

/-- C3 witness: the truncated file `dim = count = 1` with only 3 payload
bytes fails with `sizeMismatch 4 3`. -/
theorem C3_size_witness :
    (convert_bin_to_fbin (toLE4 1 ++ toLE4 1 ++ [9, 8, 7]) none .f).res =
      .error (.sizeMismatch ((1 * 1 * element_size .f : Nat) : Int) 3) :=
  C3_size_validation 1 1 [9, 8, 7] none .f (by norm_num) (by norm_num) (by decide)

/-- C10: an input of exactly 8 bytes whose header words decode to
nonnegative values with `dimension * count = 0` converts successfully, and
the destination file is exactly the 8-byte transposed header with an empty
payload. -/
theorem C10_empty_payload (d c : Nat) (dest0 : Option (List Nat)) (dt : DataType)
    (hd : d < 2 ^ 31) (hc : c < 2 ^ 31) (hdc : d * c = 0) :
    convert_bin_to_fbin (toLE4 d ++ toLE4 c) dest0 dt =
      ⟨.ok (), some (toLE4 c ++ toLE4 d)⟩ ∧
    (toLE4 d ++ toLE4 c).length = 8 ∧ (toLE4 c ++ toLE4 d).length = 8 := by
  have h := convert_ok d c [] dest0 dt hd hc (by simp [hdc])
  refine ⟨?_, by simp [toLE4], by simp [toLE4]⟩
  simpa using h

/-- C10 witness: the empty-payload theorem at `dim = 0`, `count = 7`. -/
theorem C10_empty_payload_witness :
    convert_bin_to_fbin (toLE4 0 ++ toLE4 7) none .f =
      ⟨.ok (), some (toLE4 7 ++ toLE4 0)⟩ ∧
    (toLE4 0 ++ toLE4 7).length = 8 ∧ (toLE4 7 ++ toLE4 0).length = 8 :=
  C10_empty_payload 0 7 none .f (by norm_num) (by norm_num) (by norm_num)

end ConvertDataset

namespace ConvertDataset

/-- C4: whenever `convert` fails the payload-size check (the
`Data size mismatch` `ValueError`), it raises before any write to the
destination: the destination file is exactly what it was before the call,
so no destination file is created by the failing conversion. -/
theorem C4_validate_then_write (src : List Nat) (dest0 : Option (List Nat))
    (dt : DataType) (exp : Int) (got : Nat)
    (h : (convert_bin_to_fbin src dest0 dt).res = .error (.sizeMismatch exp got)) :
    (convert_bin_to_fbin src dest0 dt).dest = dest0 := by
  unfold convert_bin_to_fbin at h ⊢
  rcases h1 : structUnpack_i (src.take 4) with e1 | fm
  · simp [h1]
  rcases h2 : structUnpack_i ((src.drop 4).take 4) with e2 | sm
  · simp [h1, h2]
  simp only [h1, h2] at h ⊢
  by_cases h3 : ((pyRead (src.drop 8) (fm * sm * (element_size dt : Int))).length : Int) ≠
      fm * sm * (element_size dt : Int)
  · rw [if_pos h3]
  · rw [if_neg h3] at h ⊢
    rcases h4 : structPack_I sm with e4 | cb
    · rw [h4] at h
      simp only at h
      have := structPack_I_error sm e4 h4
      subst this
      exact absurd (Except.error.inj h) (by simp)
    rcases h5 : structPack_I fm with e5 | db
    · rw [h4, h5] at h
      simp only at h
      have := structPack_I_error fm e5 h5
      subst this
      exact absurd (Except.error.inj h) (by simp)
    · rw [h4, h5] at h
      simp at h

/-- C4 witness: a truncated input (header only, no payload) fails the size
check and leaves the destination untouched. -/
theorem C4_validate_witness :
    (convert_bin_to_fbin (toLE4 1 ++ toLE4 1) none .f).res = .error (.sizeMismatch 4 0) ∧
    (convert_bin_to_fbin (toLE4 1 ++ toLE4 1) none .f).dest = none :=
  ⟨by rfl, C4_validate_then_write (toLE4 1 ++ toLE4 1) none .f 4 0 (by rfl)⟩

theorem structPack_I_out_of_range (x : Int) (h : x < 0 ∨ 2 ^ 32 ≤ x) :
    structPack_I x = .error .structPackError := by
  rw [structPack_I, if_neg (by omega)]

/-- C7: the standard-layout encoder treats dimension and count as unsigned
32-bit values: whenever either value lies outside `[0, 2^32)` (for
instance a count exceeding `2^32 - 1`), it fails with `struct.error`
instead of silently truncating the value to 32 bits. -/
theorem C7_encode_range_check (dim count : Int)
    (h : count < 0 ∨ 2 ^ 32 ≤ count ∨ dim < 0 ∨ 2 ^ 32 ≤ dim) :
    encode_standard dim count = .error .structPackError := by
  unfold encode_standard
  rcases h4 : structPack_I count with e4 | cb
  · rw [structPack_I_error count e4 h4]
  · have hc0 : 0 ≤ count ∧ count < 2 ^ 32 := by
      by_contra hc
      rw [structPack_I_out_of_range count (by omega)] at h4
      simp at h4
    have hdim : dim < 0 ∨ 2 ^ 32 ≤ dim := by omega
    rw [structPack_I_out_of_range dim hdim]

/-- C7 witness: encoding a count of `2^32` fails with `struct.error`. -/
theorem C7_encode_range_witness :
    encode_standard 0 (2 ^ 32) = .error .structPackError :=
  C7_encode_range_check 0 (2 ^ 32) (by norm_num)

/-- C9: the converter decodes header words as signed 32-bit integers, so a
header word in `[2^31, 2^32)` decodes to a negative number, and `convert`
on such an input always raises some exception and never returns
successfully. -/
theorem C9_signed_decode_rejects (src : List Nat) (dest0 : Option (List Nat))
    (dt : DataType)
    (hlen : 8 ≤ src.length)
    (hw : (2 ^ 31 ≤ fromLE4 (src.take 4) ∧ fromLE4 (src.take 4) < 2 ^ 32) ∨
          (2 ^ 31 ≤ fromLE4 ((src.drop 4).take 4) ∧ fromLE4 ((src.drop 4).take 4) < 2 ^ 32)) :
    (toSigned32 (fromLE4 (src.take 4)) < 0 ∨
      toSigned32 (fromLE4 ((src.drop 4).take 4)) < 0) ∧
    ∃ e, (convert_bin_to_fbin src dest0 dt).res = .error e := by
  have l1 : (src.take 4).length = 4 := by
    simp [List.length_take]
    omega
  have l2 : ((src.drop 4).take 4).length = 4 := by
    simp [List.length_take]
    omega
  have hs1 : structUnpack_i (src.take 4) = .ok (toSigned32 (fromLE4 (src.take 4))) := by
    rw [structUnpack_i, if_pos l1]
  have hs2 : structUnpack_i ((src.drop 4).take 4) =
      .ok (toSigned32 (fromLE4 ((src.drop 4).take 4))) := by
    rw [structUnpack_i, if_pos l2]
  have hneg : toSigned32 (fromLE4 (src.take 4)) < 0 ∨
      toSigned32 (fromLE4 ((src.drop 4).take 4)) < 0 := by
    rcases hw with ⟨ha, hb⟩ | ⟨ha, hb⟩
    · left
      rw [toSigned32, if_neg (by omega)]
      omega
    · right
      rw [toSigned32, if_neg (by omega)]
      omega
  refine ⟨hneg, ?_⟩
  simp only [convert_bin_to_fbin, hs1, hs2]
  set dim := toSigned32 (fromLE4 (src.take 4)) with hdim_def
  set count := toSigned32 (fromLE4 ((src.drop 4).take 4)) with hcount_def
  by_cases hsz : ((pyRead (src.drop 8) (dim * count * (element_size dt : Int))).length : Int) ≠
      dim * count * (element_size dt : Int)
  · rw [if_pos hsz]
    exact ⟨_, rfl⟩
  · rw [if_neg hsz]
    rcases h4 : structPack_I count with e4 | cb
    · exact ⟨e4, rfl⟩
    · have hc0 : 0 ≤ count := by
        by_contra hc
        rw [structPack_I_out_of_range count (by omega)] at h4
        simp at h4
      have hd0 : dim < 0 := by
        rcases hneg with hn | hn
        · exact hn
        · omega
      refine ⟨.structPackError, ?_⟩
      rw [structPack_I_out_of_range dim (Or.inl hd0)]

/-- C9 witness: a file whose dimension word is `2^31 + 5` decodes negative
and `convert` raises. -/
theorem C9_signed_decode_witness :
    (toSigned32 (fromLE4 ((toLE4 (2 ^ 31 + 5) ++ toLE4 3 ++ [1, 2, 3, 4]).take 4)) < 0 ∨
      toSigned32 (fromLE4 (((toLE4 (2 ^ 31 + 5) ++ toLE4 3 ++ [1, 2, 3, 4]).drop 4).take 4))
        < 0) ∧
    ∃ e, (convert_bin_to_fbin (toLE4 (2 ^ 31 + 5) ++ toLE4 3 ++ [1, 2, 3, 4]) none .f).res =
      .error e :=
  C9_signed_decode_rejects (toLE4 (2 ^ 31 + 5) ++ toLE4 3 ++ [1, 2, 3, 4]) none .f
    (by decide) (Or.inl (by decide))

theorem find?_name_filter (l : List (String × List Nat)) (n m : String) (h : m ≠ n) :
    (l.filter (fun p => p.1 != n)).find? (fun p => p.1 == m) =
      l.find? (fun p => p.1 == m) := by
  induction l with
  | nil => rfl
  | cons a t ih =>
    by_cases hb : a.1 = n
    · have h1 : (a.1 != n) = false := by simp [hb]
      have h2 : (a.1 == m) = false := by simp [hb]; exact fun he => h he.symm
      rw [List.filter_cons, h1, if_neg (by simp), ih,
        List.find?_cons_of_neg t (by simp [h2])]
    · have h1 : (a.1 != n) = true := by simp [hb]
      rw [List.filter_cons, h1, if_pos rfl]
      by_cases hm : a.1 = m
      · have h2 : (a.1 == m) = true := by simp [hm]
        simp only [List.find?, h2]
      · have h2 : (a.1 == m) = false := by simp [hm]
        simp only [List.find?, h2]
        exact ih

theorem lookupFile_writeFile_ne (fsys : List (String × List Nat)) (n m : String)
    (c : List Nat) (h : m ≠ n) :
    lookupFile (writeFile fsys n c) m = lookupFile fsys m := by
  unfold lookupFile writeFile
  rw [List.find?_cons_of_neg _ (by simp; exact fun he => h he.symm),
    find?_name_filter fsys n m h]

/-- C5: when a manifest entry's source file is absent, the batch driver
records a skip outcome and continues with the remaining entries exactly as
if the batch had started there — absence never aborts the batch. -/
theorem C5_missing_file_skip (srcFs : List (String × List Nat))
    (e : ManifestEntry) (rest : List ManifestEntry)
    (destFs : List (String × List Nat)) (outcomes : List Outcome)
    (h : lookupFile srcFs e.input_name = none) :
    runBatch srcFs (e :: rest) destFs outcomes =
      runBatch srcFs rest destFs (outcomes ++ [.skipped e.input_name]) := by
  rw [runBatch, h]

/-- C5 witness: an empty source directory makes the first manifest entry a
skip while the rest of the manifest is still processed. -/
theorem C5_missing_file_witness :
    runBatch [] conversions [] [] =
      runBatch [] (conversions.drop 1) [] ([] ++ [.skipped "openai_500k_train_vectors.bin"]) :=
  C5_missing_file_skip [] ⟨"openai_500k_train_vectors.bin", "openai500k_base.fbin", .f⟩
    (conversions.drop 1) [] [] (by rfl)

/-- C6: when converting a present manifest entry raises any error, the
batch driver aborts at once — the result does not depend on the remaining
entries, no further outcome is recorded, the error is surfaced together
with the offending input file name, and destination files written earlier
are left in place (no rollback). -/
theorem C6_batch_abort (srcFs : List (String × List Nat))
    (e : ManifestEntry) (rest : List ManifestEntry)
    (destFs : List (String × List Nat)) (outcomes : List Outcome)
    (src : List Nat) (err : PyError)
    (hsrc : lookupFile srcFs e.input_name = some src)
    (herr : (convert_bin_to_fbin src (lookupFile destFs e.output_name) e.dtype).res =
      .error err) :
    (runBatch srcFs (e :: rest) destFs outcomes).aborted = some (e.input_name, err) ∧
    (runBatch srcFs (e :: rest) destFs outcomes).outcomes = outcomes ∧
    (∀ rest2 : List ManifestEntry,
      runBatch srcFs (e :: rest2) destFs outcomes = runBatch srcFs (e :: rest) destFs outcomes) ∧
    (∀ name content, name ≠ e.output_name → lookupFile destFs name = some content →
      lookupFile (runBatch srcFs (e :: rest) destFs outcomes).destFs name = some content) := by
  have hrun : ∀ rs : List ManifestEntry, runBatch srcFs (e :: rs) destFs outcomes =
      ⟨match (convert_bin_to_fbin src (lookupFile destFs e.output_name) e.dtype).dest with
        | none => destFs
        | some d => writeFile destFs e.output_name d, outcomes, some (e.input_name, err)⟩ := by
    intro rs
    rw [runBatch, hsrc]
    simp only [herr]
  refine ⟨?_, ?_, ?_, ?_⟩
  · rw [hrun rest]
  · rw [hrun rest]
  · intro rest2
    rw [hrun rest, hrun rest2]
  · intro name content hne hlook
    rw [hrun rest]
    rcases (convert_bin_to_fbin src (lookupFile destFs e.output_name) e.dtype).dest with _ | d
    · exact hlook
    · show lookupFile (writeFile destFs e.output_name d) name = some content
      rw [lookupFile_writeFile_ne destFs e.output_name name d hne]
      exact hlook

/-- C6 witness: a truncated source for the first of two manifest entries
aborts the batch with that file's name and error, records no outcome,
ignores the second entry, and keeps a previously written destination
file. -/
theorem C6_batch_abort_witness :
    (runBatch [("a.bin", toLE4 1 ++ toLE4 1)]
        [⟨"a.bin", "out.fbin", .f⟩, ⟨"b.bin", "o2.fbin", .f⟩]
        [("prev.fbin", [1, 2, 3])] []).aborted = some ("a.bin", .sizeMismatch 4 0) ∧
    (runBatch [("a.bin", toLE4 1 ++ toLE4 1)]
        [⟨"a.bin", "out.fbin", .f⟩, ⟨"b.bin", "o2.fbin", .f⟩]
        [("prev.fbin", [1, 2, 3])] []).outcomes = [] ∧
    runBatch [("a.bin", toLE4 1 ++ toLE4 1)] [⟨"a.bin", "out.fbin", .f⟩]
        [("prev.fbin", [1, 2, 3])] [] =
      runBatch [("a.bin", toLE4 1 ++ toLE4 1)]
        [⟨"a.bin", "out.fbin", .f⟩, ⟨"b.bin", "o2.fbin", .f⟩]
        [("prev.fbin", [1, 2, 3])] [] ∧
    lookupFile (runBatch [("a.bin", toLE4 1 ++ toLE4 1)]
        [⟨"a.bin", "out.fbin", .f⟩, ⟨"b.bin", "o2.fbin", .f⟩]
        [("prev.fbin", [1, 2, 3])] []).destFs "prev.fbin" = some [1, 2, 3] := by
  have h := C6_batch_abort [("a.bin", toLE4 1 ++ toLE4 1)] ⟨"a.bin", "out.fbin", .f⟩
    [⟨"b.bin", "o2.fbin", .f⟩] [("prev.fbin", [1, 2, 3])] [] (toLE4 1 ++ toLE4 1)
    (.sizeMismatch 4 0) (by rfl) (by rfl)
  exact ⟨h.1, h.2.1, h.2.2.1 [], h.2.2.2 "prev.fbin" [1, 2, 3] (by decide) (by rfl)⟩

end ConvertDataset

namespace AnalyzeCagra

/-- C8: for every non-empty record list, the summarizer's CSV export is
exactly the header line `Concurrency,QPS,Recall,Latency_ms,Total_Queries`
followed by one row per record, in the order of the record list sorted
ascending by the `threads` field (that sorted list being a permutation of
the input). -/
theorem C8_summarizer_contract (l : List BenchRecord) (h : l ≠ []) :
    summaryCsv l = csvHeaderLine :: (sortResults l).map csvRow ∧
    List.Pairwise (fun a b => a.threads ≤ b.threads) (sortResults l) ∧
    (sortResults l).Perm l ∧
    (summaryCsv l).length = l.length + 1 := by
  refine ⟨rfl, ?_, ?_, ?_⟩
  · have hs : List.Pairwise
        (fun a b : BenchRecord => (decide (a.threads ≤ b.threads)) = true)
        (l.mergeSort (fun a b => decide (a.threads ≤ b.threads))) :=
      List.sorted_mergeSort
        (fun a b c h1 h2 => by
          simp only [decide_eq_true_eq] at h1 h2 ⊢
          omega)
        (fun a b => by
          simp only [Bool.or_eq_true, decide_eq_true_eq]
          exact Nat.le_total a.threads b.threads)
        l
    simpa [sortResults] using hs
  · simpa [sortResults] using List.mergeSort_perm l _
  · simp [summaryCsv, sortResults, List.length_mergeSort]

/-- C8 witness: the summarizer contract at a concrete two-record list. -/
theorem C8_summarizer_witness :
    summaryCsv [⟨2, "10.5", "0.9", "1.2", 5⟩, ⟨1, "20.5", "0.8", "2.2", 6⟩] =
      csvHeaderLine ::
        (sortResults [⟨2, "10.5", "0.9", "1.2", 5⟩, ⟨1, "20.5", "0.8", "2.2", 6⟩]).map csvRow ∧
    List.Pairwise (fun a b => a.threads ≤ b.threads)
      (sortResults [⟨2, "10.5", "0.9", "1.2", 5⟩, ⟨1, "20.5", "0.8", "2.2", 6⟩]) ∧
    (sortResults [⟨2, "10.5", "0.9", "1.2", 5⟩, ⟨1, "20.5", "0.8", "2.2", 6⟩]).Perm
      [⟨2, "10.5", "0.9", "1.2", 5⟩, ⟨1, "20.5", "0.8", "2.2", 6⟩] ∧
    (summaryCsv [⟨2, "10.5", "0.9", "1.2", 5⟩, ⟨1, "20.5", "0.8", "2.2", 6⟩]).length =
      ([⟨2, "10.5", "0.9", "1.2", 5⟩, ⟨1, "20.5", "0.8", "2.2", 6⟩] :
        List BenchRecord).length + 1 :=
  C8_summarizer_contract [⟨2, "10.5", "0.9", "1.2", 5⟩, ⟨1, "20.5", "0.8", "2.2", 6⟩]
    (List.cons_ne_nil _ _)

end AnalyzeCagra
